import Mathlib

/-!
Verification development for the cloud_monitor telemetry-to-alert pipeline.

Shallow embedding of `src/app.py` (sampling loop, threshold classification,
bounded event/alert logs) and `src/service.py` (the `AIService` enrichment
gateway with its deterministic fallback, alert history, analysis, query and
recommendation operations).  Metric values are modelled as rationals, wall
clock timestamps as opaque strings supplied by the caller, and the external
reasoning service as an explicit outcome value: `Except.error` stands for any
exception raised while formatting the prompt, issuing the request, timing out
or JSON-decoding the response (all of which land in the same `except` block
of the source), and `Except.ok` carries the parsed response object with every
field optional, exactly as a decoded JSON dictionary is.
-/

namespace CloudMonitor

/-- Metric snapshot as consumed by the monitor: `metrics['cpu']`,
`metrics['memory']['percent']`, `metrics['disk']['percent']`. -/
structure Snapshot where
  cpu : Rat
  memory_percent : Rat
  disk_percent : Rat
deriving DecidableEq, Repr

/-- One entry of `AIService.alert_history` (service.py lines 135-140). -/
structure AlertRecord where
  timestamp : String
  metric : String
  value : Rat
  severity : String
deriving DecidableEq, Repr

/-- A decoded JSON response of the alert-explanation call.  Every field is
optional because `json.loads` imposes no schema; `enhance_alert` returns this
dictionary unchanged on success. -/
structure SvcResult where
  explanation : Option String
  causes : Option (List String)
  actions : Option (List String)
  severity : Option String
  related_metrics : Option (List String)
deriving DecidableEq, Repr

/-- A decoded JSON response of the system-analysis call, and the shape of
`simulate_analysis` (service.py lines 270-281). -/
structure AnalysisJson where
  status : Option String
  findings : Option (List String)
  risks : Option (List String)
  optimization : Option (List String)
deriving DecidableEq, Repr

/-- A decoded JSON response of the log-query call, and the shape of
`simulate_query` (service.py lines 283-290). -/
structure QueryJson where
  answer : Option String
  evidence : Option (List String)
  confidence : Option Rat
  follow_up : Option (List String)
deriving DecidableEq, Repr

/-- The bounded-buffer idiom shared by all three stores of the program:
`store.append(x)` followed by `if len(store) > cap: store.pop(0)`
(app.py lines 65-70 and 76-77, service.py lines 141-143). -/
def boundedAppend {α : Type} (cap : Nat) (l : List α) (x : α) : List α :=
  let l2 := l ++ [x]
  if cap < l2.length then l2.tail else l2

/-- `default_response` of `enhance_alert` (service.py lines 85-91): the
deterministic fallback returned when no client is configured or the service
call fails. -/
def default_response (metric : String) (value : Rat) : SvcResult :=
  { explanation := some (metric ++ " is at " ++ toString value ++ "%")
    causes := some ["System load", "Application demand", "Background processes"]
    actions := some ["Check running processes", "Monitor trends", "Consider scaling"]
    severity := some (if 80 < value then "high" else if 60 < value then "medium" else "low")
    related_metrics := some ["memory_usage", "disk_io", "network_traffic"] }

/-- `AIService.enhance_alert` (service.py lines 80-149).  `hasClient` is
`self.client is not None`; `outcome` stands for the whole guarded service
interaction (prompt formatting, request, `json.loads`).  The threshold table
and the context string built from the last three history entries only shape
the prompt text, which is absorbed into `outcome`.  Returns the result
dictionary together with the updated `alert_history`. -/
def enhance_alert (hasClient : Bool) (outcome : Except String SvcResult)
    (metric : String) (value : Rat) (now : String)
    (history : List AlertRecord) : SvcResult × List AlertRecord :=
  if hasClient = false then (default_response metric value, history)
  else
    match outcome with
    | Except.error _ => (default_response metric value, history)
    | Except.ok result =>
        let alert_record : AlertRecord :=
          { timestamp := now, metric := metric, value := value
            severity := result.severity.getD "medium" }
        (result, boundedAppend 10 history alert_record)

/-- `AIService.simulate_analysis` (service.py lines 270-281); `recent_logs`
is accepted and ignored exactly as in the source. -/
def simulate_analysis (cpu memory_percent : Rat) (recent_logs : List String) :
    AnalysisJson :=
  { status := some (if 80 < cpu ∨ 85 < memory_percent then "warning" else "healthy")
    findings := some ["System monitoring active", "Using simulated AI analysis"]
    risks := some ["No real AI insights available"]
    optimization := some ["Enable AI service for detailed analysis"] }

/-- `AIService.analyze_system_state` (service.py lines 151-178). -/
def analyze_system_state (hasClient : Bool) (outcome : Except String AnalysisJson)
    (cpu memory_percent disk_percent : Rat) (recent_logs : List String) :
    AnalysisJson :=
  if hasClient = false then simulate_analysis cpu memory_percent recent_logs
  else
    match outcome with
    | Except.error _ => simulate_analysis cpu memory_percent recent_logs
    | Except.ok result => result

/-- `AIService.simulate_query` (service.py lines 283-290). -/
def simulate_query (question : String) (logs : List String) : QueryJson :=
  { answer := some "AI service is currently unavailable. Please enable OpenAI integration."
    evidence := some []
    confidence := some (1 / 10)
    follow_up := some ["Enable AI service for detailed log analysis?"] }

/-- `AIService.query_logs_natural_language` (service.py lines 180-205). -/
def query_logs_natural_language (hasClient : Bool)
    (outcome : Except String QueryJson) (question : String)
    (logs : List String) : QueryJson :=
  if hasClient = false then simulate_query question logs
  else
    match outcome with
    | Except.error _ => simulate_query question logs
    | Except.ok result => result

/-- One recommendation record of `generate_recommendations`. -/
structure Recommendation where
  type : String
  priority : String
  action : String
  details : String
deriving DecidableEq, Repr

/-- The report returned by `generate_recommendations`. -/
structure RecommendationReport where
  timestamp : String
  recommendations : List Recommendation
  summary : String
deriving DecidableEq, Repr

/-- `AIService.generate_recommendations` (service.py lines 207-245). -/
def generate_recommendations (now : String) (cpu memory_percent disk_percent : Rat) :
    RecommendationReport :=
  let recs : List Recommendation :=
    (if 70 < cpu then
      [{ type := "cpu", priority := "high", action := "Optimize CPU usage"
         details := "Current CPU is " ++ toString cpu ++ "%. Consider: 1. Identify CPU-intensive processes 2. Optimize application code 3. Add CPU limits" }]
     else []) ++
    (if 80 < memory_percent then
      [{ type := "memory", priority := "high", action := "Address memory usage"
         details := "Memory at " ++ toString memory_percent ++ "%. Consider: 1. Check for memory leaks 2. Increase swap space 3. Add more RAM" }]
     else []) ++
    (if 85 < disk_percent then
      [{ type := "disk", priority := "critical", action := "Free up disk space"
         details := "Disk at " ++ toString disk_percent ++ "%. Consider: 1. Clean up temporary files 2. Archive old logs 3. Increase storage" }]
     else [])
  { timestamp := now, recommendations := recs
    summary := "Found " ++ toString recs.length ++ " optimization opportunities" }

/-- One entry of `ai_alerts_store` (app.py lines 55-63). -/
structure AiEntry where
  timestamp : String
  level : String
  original_message : String
  ai_explanation : String
  likely_causes : List String
  recommended_actions : List String
  severity : String
deriving DecidableEq, Repr

/-- The mutable process state of app.py: the two bounded stores, the
gateway's alert history, and the two Prometheus counters the pipeline bumps
(`PROM_LOGS` summed over levels, `PROM_AI_ALERTS` summed over severities). -/
structure AppState where
  logs_store : List String
  ai_alerts_store : List AiEntry
  alert_history : List AlertRecord
  prom_logs : Nat
  prom_ai_alerts : Nat
deriving DecidableEq, Repr

/-- ASCII upper-casing of a level name, as Python `level.upper()` does
(kernel-computable counterpart of `String.toUpper`). -/
def strUpper (s : String) : String := String.mk (s.data.map Char.toUpper)

/-- Characters strictly before the first occurrence of `c`. -/
def takeBeforeChar (c : Char) : List Char → List Char
  | [] => []
  | x :: xs => if x = c then [] else x :: takeBeforeChar c xs

/-- The value `add_log` hands to `enhance_alert`:
`metrics.get('cpu') if metrics else 0` (app.py line 50). -/
def enhanceValue (metrics : Option Snapshot) : Rat :=
  match metrics with
  | some m => m.cpu
  | none => 0

/-- The metric name `add_log` hands to `enhance_alert`:
`message.split(":")[0] if ":" in message else "System"` (app.py line 49). -/
def enhanceMetricName (message : String) : String :=
  if message.data.contains ':' then
    String.mk (takeBeforeChar ':' message.data)
  else "System"

/-- `add_log` (app.py lines 38-79).  `aiEnabled` is `ai_service` being
non-None; `hasClient`/`outcome` parametrise the gateway exactly as in
`enhance_alert`.  The `try` around the enrichment block can only be entered
through `ai_service.enhance_alert`, whose own guard already catches every
service failure, so the model has no further failure path there. -/
def add_log (aiEnabled hasClient : Bool) (outcome : Except String SvcResult)
    (now level message : String) (metrics : Option Snapshot)
    (s : AppState) : AppState :=
  let entry := now ++ " | " ++ strUpper level ++ " | " ++ message
  let s1 : AppState := { s with logs_store := s.logs_store ++ [entry] }
  let s2 : AppState :=
    if (level = "warning" ∨ level = "error" ∨ level = "critical") ∧ aiEnabled then
      let enhanced :=
        enhance_alert hasClient outcome (enhanceMetricName message)
          (enhanceValue metrics) now s1.alert_history
      let ai_entry : AiEntry :=
        { timestamp := now, level := level, original_message := message
          ai_explanation := enhanced.1.explanation.getD ""
          likely_causes := enhanced.1.causes.getD []
          recommended_actions := enhanced.1.actions.getD []
          severity := enhanced.1.severity.getD "medium" }
      { s1 with
          ai_alerts_store := boundedAppend 20 s1.ai_alerts_store ai_entry
          alert_history := enhanced.2
          prom_ai_alerts := s1.prom_ai_alerts + 1 }
    else s1
  { s2 with
      logs_store := if 100 < s2.logs_store.length then s2.logs_store.tail
                    else s2.logs_store
      prom_logs := s2.prom_logs + 1 }

/-- The threshold classification of one body of `background_monitor`
(app.py lines 99-116): level and message of the single log event of the
tick, first matching branch only.  `thirty` is `int(time.time()) % 30 == 0`. -/
def classify (cpu memory_percent disk_percent : Rat) (thirty : Bool) :
    String × String :=
  if 90 < cpu then ("critical", "CPU Critical: " ++ toString cpu ++ "%")
  else if 70 < cpu then ("warning", "High CPU Load: " ++ toString cpu ++ "%")
  else if 90 < memory_percent then
    ("critical", "Memory Critical: " ++ toString memory_percent ++ "%")
  else if 80 < memory_percent then
    ("warning", "High Memory Usage: " ++ toString memory_percent ++ "%")
  else if 90 < disk_percent then
    ("critical", "Disk Critical: " ++ toString disk_percent ++ "%")
  else if 80 < disk_percent then
    ("warning", "High Disk Usage: " ++ toString disk_percent ++ "%")
  else if thirty then
    ("info", "System Status: CPU " ++ toString cpu ++ "%, RAM " ++
      toString memory_percent ++ "%, Disk " ++ toString disk_percent ++ "%")
  else
    ("info", "System Stable: CPU " ++ toString cpu ++ "%, RAM " ++
      toString memory_percent ++ "%")

/-- What one iteration of the `while True` loop encounters: either
`get_system_metrics()` succeeds with a snapshot (plus the wall clock facts
the body reads), or some step inside the `try` raises with a message. -/
inductive TickInput : Type
  | ok (now : String) (snap : Snapshot) (thirty : Bool)
  | fail (now : String) (msg : String)
deriving DecidableEq, Repr

/-- One iteration of `background_monitor` (app.py lines 85-119): classify
and log on success, and on any failure the `except` arm logs
`Monitor Error: ...` at level error (with no snapshot) and the loop goes on. -/
def monitor_tick (aiEnabled hasClient : Bool) (outcome : Except String SvcResult)
    (t : TickInput) (s : AppState) : AppState :=
  match t with
  | TickInput.ok now snap thirty =>
      let c := classify snap.cpu snap.memory_percent snap.disk_percent thirty
      add_log aiEnabled hasClient outcome now c.1 c.2 (some snap) s
  | TickInput.fail now msg =>
      add_log aiEnabled hasClient outcome now "error" ("Monitor Error: " ++ msg)
        none s

/-- The sampling loop run over a finite schedule of tick inputs. -/
def run_monitor (aiEnabled hasClient : Bool) (outcome : Except String SvcResult)
    (ticks : List TickInput) (s : AppState) : AppState :=
  ticks.foldl (fun st t => monitor_tick aiEnabled hasClient outcome t st) s

/-- A bounded log built by folding `boundedAppend` over a sequence of
appends, starting empty — the life of `logs_store` (capacity 100) and
`ai_alerts_store` (capacity 20). -/
def runAppends {α : Type} (cap : Nat) (xs : List α) : List α :=
  xs.foldl (boundedAppend cap) []

/-- A sequence of gateway calls whose service interactions all have the given
outcomes, folded over the alert history. -/
def runEnhanceCalls (hasClient : Bool)
    (calls : List (Except String SvcResult × String × Rat × String))
    (history : List AlertRecord) : List AlertRecord :=
  calls.foldl
    (fun h c => (enhance_alert hasClient c.1 c.2.1 c.2.2.1 c.2.2.2 h).2)
    history

/-! Helper lemmas about the bounded-buffer idiom. -/

lemma boundedAppend_eq_drop {α : Type} (cap : Nat) (l : List α) (x : α)
    (h : l.length ≤ cap) :
    boundedAppend cap l x = (l ++ [x]).drop (l.length + 1 - cap) := by
  simp only [boundedAppend, List.length_append, List.length_singleton]
  split
  · have h1 : l.length + 1 - cap = 1 := by omega
    rw [h1, ← List.drop_one]
  · have h0 : l.length + 1 - cap = 0 := by omega
    rw [h0, List.drop_zero]

lemma boundedAppend_length_le {α : Type} (cap : Nat) (l : List α) (x : α)
    (h : l.length ≤ cap) : (boundedAppend cap l x).length ≤ cap := by
  rw [boundedAppend_eq_drop cap l x h, List.length_drop]
  simp only [List.length_append, List.length_singleton]
  omega

lemma foldl_boundedAppend_eq_drop {α : Type} (cap : Nat) :
    ∀ (xs l : List α), l.length ≤ cap →
      xs.foldl (boundedAppend cap) l =
        (l ++ xs).drop (l.length + xs.length - cap)
  | [], l, h => by
      simp only [List.foldl_nil, List.append_nil, List.length_nil]
      have h0 : l.length + 0 - cap = 0 := by omega
      rw [h0, List.drop_zero]
  | x :: xs, l, h => by
      rw [List.foldl_cons]
      have hlen := boundedAppend_length_le cap l x h
      rw [foldl_boundedAppend_eq_drop cap xs _ hlen]
      rw [boundedAppend_eq_drop cap l x h]
      have hd : l.length + 1 - cap ≤ (l ++ [x]).length := by
        simp only [List.length_append, List.length_singleton]; omega
      rw [← List.drop_append_of_le_length hd]
      rw [List.drop_drop]
      have hl1 : ((l ++ [x]).drop (l.length + 1 - cap)).length
          = l.length + 1 - (l.length + 1 - cap) := by
        rw [List.length_drop]; simp
      rw [hl1]
      have e2 : l ++ [x] ++ xs = l ++ x :: xs := by simp
      rw [e2]
      congr 1
      simp only [List.length_cons]
      omega

lemma runAppends_eq_drop {α : Type} (cap : Nat) (xs : List α) :
    runAppends cap xs = xs.drop (xs.length - cap) := by
  have h := foldl_boundedAppend_eq_drop cap xs [] (by simp)
  simpa [runAppends] using h

lemma runAppends_length {α : Type} (cap : Nat) (xs : List α) :
    (runAppends cap xs).length = xs.length - (xs.length - cap) := by
  rw [runAppends_eq_drop, List.length_drop]

lemma boundedAppend_getLast {α : Type} (cap : Nat) (l : List α) (x : α)
    (hcap : 0 < cap) (hl : l.length ≤ cap) :
    (boundedAppend cap l x).getLast? = some x := by
  simp only [boundedAppend, List.length_append, List.length_singleton]
  split
  · have hne : l ≠ [] := by
      intro hnil
      subst hnil
      simp at *
      omega
    rw [List.tail_append_of_ne_nil hne]
    exact List.getLast?_concat _
  · exact List.getLast?_concat _

/-! Claim theorems. -/

/-- Claim C1, counterexample.  The claim asserts that every snapshot with
cpu ≥ 90 classifies as critical, but the source tests `cpu > 90` strictly:
at cpu = 90 exactly, the first branch is skipped and `cpu > 70` fires, so
the tick is classified warning, not critical. -/
theorem C1_spec_boundary_counterexample :
    ¬ (∀ (cpu memory_percent disk_percent : Rat) (thirty : Bool),
        90 ≤ cpu →
        (classify cpu memory_percent disk_percent thirty).1 = "critical") := by
  intro h
  have h90 := h 90 0 0 false (by norm_num)
  have hw : (classify 90 0 0 false).1 = "warning" := by decide
  rw [hw] at h90
  exact absurd h90 (by decide)

/-- Claim C1, amended to the strict thresholds of the source.
Classification evaluates the metrics in the fixed priority order CPU
critical, CPU warning, memory critical, memory warning, disk critical,
disk warning, else informational, and returns only the first match, with
every threshold strict: cpu > 90 yields critical with a message beginning
"CPU Critical", 70 < cpu ≤ 90 yields warning, and cpu ≤ 70 with memory and
disk at or below their warning thresholds (80) yields info. -/
theorem C1_classify_first_match (cpu memory_percent disk_percent : Rat)
    (thirty : Bool) :
    (90 < cpu → classify cpu memory_percent disk_percent thirty =
      ("critical", "CPU Critical: " ++ toString cpu ++ "%")) ∧
    (70 < cpu → cpu ≤ 90 → classify cpu memory_percent disk_percent thirty =
      ("warning", "High CPU Load: " ++ toString cpu ++ "%")) ∧
    (cpu ≤ 70 → 90 < memory_percent →
      classify cpu memory_percent disk_percent thirty =
      ("critical", "Memory Critical: " ++ toString memory_percent ++ "%")) ∧
    (cpu ≤ 70 → 80 < memory_percent → memory_percent ≤ 90 →
      classify cpu memory_percent disk_percent thirty =
      ("warning", "High Memory Usage: " ++ toString memory_percent ++ "%")) ∧
    (cpu ≤ 70 → memory_percent ≤ 80 → 90 < disk_percent →
      classify cpu memory_percent disk_percent thirty =
      ("critical", "Disk Critical: " ++ toString disk_percent ++ "%")) ∧
    (cpu ≤ 70 → memory_percent ≤ 80 → 80 < disk_percent → disk_percent ≤ 90 →
      classify cpu memory_percent disk_percent thirty =
      ("warning", "High Disk Usage: " ++ toString disk_percent ++ "%")) ∧
    (cpu ≤ 70 → memory_percent ≤ 80 → disk_percent ≤ 80 →
      (classify cpu memory_percent disk_percent thirty).1 = "info") := by
  unfold classify
  refine ⟨?_, ?_, ?_, ?_, ?_, ?_, ?_⟩ <;> intros <;> split_ifs <;>
    first
      | rfl
      | (exfalso; linarith)

/-- Witness for C1: the amended classification at concrete snapshots, one
per branch of the priority order. -/
theorem C1_classify_first_match_witness :
    classify 95 20 20 false = ("critical", "CPU Critical: 95%") ∧
    classify 80 20 20 false = ("warning", "High CPU Load: 80%") ∧
    classify 50 95 20 false = ("critical", "Memory Critical: 95%") ∧
    classify 50 85 20 false = ("warning", "High Memory Usage: 85%") ∧
    classify 50 50 95 false = ("critical", "Disk Critical: 95%") ∧
    classify 50 50 85 false = ("warning", "High Disk Usage: 85%") ∧
    (classify 50 50 50 false).1 = "info" := by
  refine ⟨?_, ?_, ?_, ?_, ?_, ?_, ?_⟩
  · rw [(C1_classify_first_match 95 20 20 false).1 (by norm_num)]; decide
  · rw [(C1_classify_first_match 80 20 20 false).2.1 (by norm_num) (by norm_num)]
    decide
  · rw [(C1_classify_first_match 50 95 20 false).2.2.1 (by norm_num) (by norm_num)]
    decide
  · rw [(C1_classify_first_match 50 85 20 false).2.2.2.1 (by norm_num) (by norm_num)
      (by norm_num)]
    decide
  · rw [(C1_classify_first_match 50 50 95 false).2.2.2.2.1 (by norm_num) (by norm_num)
      (by norm_num)]
    decide
  · rw [(C1_classify_first_match 50 50 85 false).2.2.2.2.2.1 (by norm_num) (by norm_num)
      (by norm_num) (by norm_num)]
    decide
  · exact (C1_classify_first_match 50 50 50 false).2.2.2.2.2.2 (by norm_num)
      (by norm_num) (by norm_num)

/-- Claim C2: after more appends than the capacity, the event log (capacity
100) and the alert log (capacity 20) hold exactly `capacity` entries equal
to the last `capacity` appended entries in insertion order, and one append
to a full log evicts exactly the single oldest entry. -/
theorem C2_bounded_logs_fifo (xs : List String) (entries : List AiEntry)
    (hx : 100 < xs.length) (he : 20 < entries.length) :
    (runAppends 100 xs).length = 100 ∧
    runAppends 100 xs = xs.drop (xs.length - 100) ∧
    (runAppends 20 entries).length = 20 ∧
    runAppends 20 entries = entries.drop (entries.length - 20) ∧
    (∀ (l : List String) (x : String), l.length = 100 →
      boundedAppend 100 l x = l.tail ++ [x]) ∧
    (∀ (l : List AiEntry) (x : AiEntry), l.length = 20 →
      boundedAppend 20 l x = l.tail ++ [x]) := by
  refine ⟨?_, runAppends_eq_drop 100 xs, ?_, runAppends_eq_drop 20 entries, ?_, ?_⟩
  · rw [runAppends_length]; omega
  · rw [runAppends_length]; omega
  · intro l x hl
    rw [boundedAppend_eq_drop 100 l x (by omega), hl]
    rw [show (100 : Nat) + 1 - 100 = 1 from rfl,
      List.drop_append_of_le_length (by omega), List.drop_one]
  · intro l x hl
    rw [boundedAppend_eq_drop 20 l x (by omega), hl]
    rw [show (20 : Nat) + 1 - 20 = 1 from rfl,
      List.drop_append_of_le_length (by omega), List.drop_one]

/-- Witness for C2: 101 appends to the event log and 21 to the alert log
leave exactly 100 and 20 entries. -/
theorem C2_bounded_logs_fifo_witness :
    100 < (List.replicate 101 "a").length ∧
    20 < (List.replicate 21 (AiEntry.mk "t" "warning" "m" "e" [] [] "low")).length ∧
    (runAppends 100 (List.replicate 101 "a")).length = 100 ∧
    (runAppends 20 (List.replicate 21 (AiEntry.mk "t" "warning" "m" "e" [] [] "low"))).length = 20 := by
  have h := C2_bounded_logs_fifo (List.replicate 101 "a")
    (List.replicate 21 (AiEntry.mk "t" "warning" "m" "e" [] [] "low"))
    (by simp) (by simp)
  exact ⟨by simp, by simp, h.1, h.2.2.1⟩

/-- Steps of the gateway whose service interaction fails leave the alert
history untouched, however many there are. -/
lemma runEnhanceCalls_of_errors (hasClient : Bool) :
    ∀ (calls : List (Except String SvcResult × String × Rat × String))
      (history : List AlertRecord),
      (∀ c ∈ calls, ∃ msg, c.1 = Except.error msg) →
      runEnhanceCalls hasClient calls history = history
  | [], _, _ => rfl
  | c :: cs, history, h => by
      obtain ⟨msg, hmsg⟩ := h c (List.mem_cons_self c cs)
      have hstep : (enhance_alert hasClient c.1 c.2.1 c.2.2.1 c.2.2.2 history).2
          = history := by
        rw [hmsg]
        cases hasClient <;> rfl
      simp only [runEnhanceCalls, List.foldl_cons]
      rw [hstep]
      exact runEnhanceCalls_of_errors hasClient cs history
        (fun d hd => h d (List.mem_cons_of_mem c hd))

/-- Steps of the gateway whose service interaction succeeds reduce to the
capacity-10 bounded append of the corresponding history records. -/
lemma runEnhanceCalls_of_ok :
    ∀ (succs : List (SvcResult × String × Rat × String))
      (history : List AlertRecord),
      runEnhanceCalls true
        (succs.map (fun c => (Except.ok c.1, c.2))) history =
      (succs.map (fun c => AlertRecord.mk c.2.2.2 c.2.1 c.2.2.1
        (c.1.severity.getD "medium"))).foldl (boundedAppend 10) history
  | [], _ => rfl
  | c :: cs, history => by
      simp only [runEnhanceCalls, List.map_cons, List.foldl_cons]
      exact runEnhanceCalls_of_ok cs _

/-- Claim C3: whatever the external reasoning service does — transport
error, timeout or malformed response, all of which raise inside the guarded
block and are modelled by `Except.error` — `enhance_alert`,
`analyze_system_state` and `query_logs_natural_language` return exactly
their fallback values (total functions in the embedding, so no exception
escapes), and arbitrarily many consecutive failing enrichment calls leave
the gateway state unchanged. -/
theorem C3_gateway_never_throws (e1 e2 e3 : String) (metric : String)
    (value : Rat) (now : String) (history : List AlertRecord)
    (cpu memory_percent disk_percent : Rat) (logs : List String)
    (question : String)
    (calls : List (Except String SvcResult × String × Rat × String))
    (hcalls : ∀ c ∈ calls, ∃ msg, c.1 = Except.error msg) :
    enhance_alert true (Except.error e1) metric value now history =
      (default_response metric value, history) ∧
    analyze_system_state true (Except.error e2) cpu memory_percent
      disk_percent logs = simulate_analysis cpu memory_percent logs ∧
    query_logs_natural_language true (Except.error e3) question logs =
      simulate_query question logs ∧
    runEnhanceCalls true calls history = history := by
  exact ⟨rfl, rfl, rfl, runEnhanceCalls_of_errors true calls history hcalls⟩

/-- Witness for C3: one hundred consecutive failing enrichment calls return
fallback and leave the history empty. -/
theorem C3_gateway_never_throws_witness :
    (∀ c ∈ (List.replicate 100 ((Except.error "boom" : Except String SvcResult),
        "cpu", (50 : Rat), "t")), ∃ msg, c.1 = Except.error msg) ∧
    runEnhanceCalls true
      (List.replicate 100 ((Except.error "boom" : Except String SvcResult),
        "cpu", (50 : Rat), "t")) [] = [] := by
  have hc : ∀ c ∈ (List.replicate 100 ((Except.error "boom" : Except String SvcResult),
      "cpu", (50 : Rat), "t")), ∃ msg, c.1 = Except.error msg := by
    intro c hc
    rw [List.eq_of_mem_replicate hc]
    exact ⟨"boom", rfl⟩
  exact ⟨hc, (C3_gateway_never_throws "e" "e" "e" "cpu" 50 "t" [] 0 0 0 [] "q" _ hc).2.2.2⟩

/-- Claim C4: with no client configured, `enhance_alert` deterministically
returns the fallback — templated explanation restating metric and value,
the fixed causes, actions and related-metrics arrays, and a severity
derived purely from the value (>80 high, >60 medium, else low) — and
leaves the alert history exactly as it was. -/
theorem C4_fallback_is_pure (outcome : Except String SvcResult)
    (metric : String) (value : Rat) (now : String)
    (history : List AlertRecord) :
    enhance_alert false outcome metric value now history =
      (default_response metric value, history) ∧
    (enhance_alert false outcome metric value now history).1.explanation =
      some (metric ++ " is at " ++ toString value ++ "%") ∧
    (enhance_alert false outcome metric value now history).1.causes =
      some ["System load", "Application demand", "Background processes"] ∧
    (enhance_alert false outcome metric value now history).1.actions =
      some ["Check running processes", "Monitor trends", "Consider scaling"] ∧
    (enhance_alert false outcome metric value now history).1.related_metrics =
      some ["memory_usage", "disk_io", "network_traffic"] ∧
    (80 < value →
      (enhance_alert false outcome metric value now history).1.severity =
        some "high") ∧
    (60 < value → value ≤ 80 →
      (enhance_alert false outcome metric value now history).1.severity =
        some "medium") ∧
    (value ≤ 60 →
      (enhance_alert false outcome metric value now history).1.severity =
        some "low") := by
  refine ⟨rfl, rfl, rfl, rfl, rfl, ?_, ?_, ?_⟩
  · intro h
    show (default_response metric value).severity = some "high"
    simp only [default_response]
    rw [if_pos h]
  · intro h1 h2
    show (default_response metric value).severity = some "medium"
    simp only [default_response]
    rw [if_neg (by linarith), if_pos h1]
  · intro h
    show (default_response metric value).severity = some "low"
    simp only [default_response]
    rw [if_neg (by linarith), if_neg (by linarith)]

/-- Witness for C4: fallback severities at values 85, 65 and 30, with the
history untouched. -/
theorem C4_fallback_is_pure_witness :
    (enhance_alert false (Except.error "x") "cpu" 85 "t" []).1.severity =
      some "high" ∧
    (enhance_alert false (Except.error "x") "cpu" 65 "t" []).1.severity =
      some "medium" ∧
    (enhance_alert false (Except.error "x") "cpu" 30 "t" []).1.severity =
      some "low" ∧
    (enhance_alert false (Except.error "x") "cpu" 85 "t" []).2 = [] :=
  ⟨(C4_fallback_is_pure (Except.error "x") "cpu" 85 "t" []).2.2.2.2.2.1
      (by norm_num),
   (C4_fallback_is_pure (Except.error "x") "cpu" 65 "t" []).2.2.2.2.2.2.1
      (by norm_num) (by norm_num),
   (C4_fallback_is_pure (Except.error "x") "cpu" 30 "t" []).2.2.2.2.2.2.2
      (by norm_num),
   congrArg Prod.snd (C4_fallback_is_pure (Except.error "x") "cpu" 85 "t" []).1⟩

/-- Claim C5: the gateway appends an alert-history entry exactly on the
successful path — one record per successful call, capacity 10 with the
single oldest evicted — while failing calls and the no-client path leave
the history unchanged, over any number of calls. -/
theorem C5_history_append_iff_success (r : SvcResult) (metric : String)
    (value : Rat) (now e : String) (outcome0 : Except String SvcResult)
    (history : List AlertRecord)
    (succs : List (SvcResult × String × Rat × String))
    (hlen : history.length ≤ 10) :
    (enhance_alert true (Except.ok r) metric value now history).2 =
      (history ++ [AlertRecord.mk now metric value (r.severity.getD "medium")]).drop
        (history.length + 1 - 10) ∧
    ((enhance_alert true (Except.ok r) metric value now history).2).length ≤ 10 ∧
    (enhance_alert true (Except.error e) metric value now history).2 = history ∧
    (enhance_alert false outcome0 metric value now history).2 = history ∧
    runEnhanceCalls true (succs.map (fun c => (Except.ok c.1, c.2))) history =
      (history ++ succs.map (fun c => AlertRecord.mk c.2.2.2 c.2.1 c.2.2.1
        (c.1.severity.getD "medium"))).drop
        (history.length + succs.length - 10) ∧
    (runEnhanceCalls true (succs.map (fun c => (Except.ok c.1, c.2)))
      history).length ≤ 10 := by
  have hstep : (enhance_alert true (Except.ok r) metric value now history).2 =
      boundedAppend 10 history
        (AlertRecord.mk now metric value (r.severity.getD "medium")) := rfl
  have hrun := runEnhanceCalls_of_ok succs history
  have hfold := foldl_boundedAppend_eq_drop 10
    (succs.map (fun c => AlertRecord.mk c.2.2.2 c.2.1 c.2.2.1
      (c.1.severity.getD "medium"))) history hlen
  refine ⟨?_, ?_, rfl, rfl, ?_, ?_⟩
  · rw [hstep, boundedAppend_eq_drop 10 history _ hlen]
  · rw [hstep]
    exact boundedAppend_length_le 10 history _ hlen
  · rw [hrun, hfold]
    simp
  · rw [hrun, hfold, List.length_drop]
    simp only [List.length_append, List.length_map]
    omega

/-- Witness for C5: from an empty history, one successful call appends its
record and one failing call appends nothing. -/
theorem C5_history_append_iff_success_witness :
    ([] : List AlertRecord).length ≤ 10 ∧
    (enhance_alert true
      (Except.ok (SvcResult.mk none none none (some "high") none))
      "cpu" 91 "t" []).2 =
      [AlertRecord.mk "t" "cpu" 91 "high"] ∧
    (enhance_alert true (Except.error "boom") "cpu" 91 "t" []).2 = [] := by
  have h := C5_history_append_iff_success
    (SvcResult.mk none none none (some "high") none) "cpu" 91 "t" "boom"
    (Except.error "z") [] [] (by simp)
  refine ⟨by simp, ?_, h.2.2.1⟩
  rw [h.1]
  decide


/-- Claim C6, counterexample.  The claim asserts that a response carrying a
severity outside the three tiers is coerced to "medium" or rejected and
never stored as-is; but `result.get("severity", "medium")` only substitutes
a missing field, so a successful response with severity "bogus" is stored
in the alert history verbatim. -/
theorem C6_severity_tier_counterexample :
    ¬ (∀ (r : SvcResult) (metric : String) (value : Rat) (now : String)
        (history : List AlertRecord),
        ∀ rec2 ∈ (enhance_alert true (Except.ok r) metric value now history).2,
          rec2.severity = "low" ∨ rec2.severity = "medium" ∨
          rec2.severity = "high") := by
  intro h
  have hmem : (AlertRecord.mk "t" "cpu" 50 "bogus") ∈
      (enhance_alert true
        (Except.ok (SvcResult.mk none none none (some "bogus") none))
        "cpu" 50 "t" []).2 := by
    rw [show (enhance_alert true
        (Except.ok (SvcResult.mk none none none (some "bogus") none))
        "cpu" 50 "t" []).2 = [AlertRecord.mk "t" "cpu" 50 "bogus"] from by rfl]
    exact List.mem_singleton.mpr rfl
  have hc := h (SvcResult.mk none none none (some "bogus") none)
    "cpu" 50 "t" [] (AlertRecord.mk "t" "cpu" 50 "bogus") hmem
  rcases hc with h1 | h1 | h1 <;> exact absurd h1 (by decide)

/-- Claim C6, amended to what the source does: the severity of a successful
response is passed through and stored as-is, whatever its value, both in
the gateway history record and in the alert entry the app stores; only a
missing severity field is defaulted to "medium". -/
theorem C6_severity_passthrough (r : SvcResult) (metric level message : String)
    (value : Rat) (now : String) (history : List AlertRecord)
    (metrics : Option Snapshot) (s : AppState)
    (hlevel : level = "warning" ∨ level = "error" ∨ level = "critical") :
    (enhance_alert true (Except.ok r) metric value now history).1 = r ∧
    (enhance_alert true (Except.ok r) metric value now history).2 =
      boundedAppend 10 history
        (AlertRecord.mk now metric value (r.severity.getD "medium")) ∧
    (r.severity = none →
      (enhance_alert true (Except.ok r) metric value now history).2 =
        boundedAppend 10 history (AlertRecord.mk now metric value "medium")) ∧
    (add_log true true (Except.ok r) now level message metrics s).ai_alerts_store =
      boundedAppend 20 s.ai_alerts_store
        (AiEntry.mk now level message (r.explanation.getD "")
          (r.causes.getD []) (r.actions.getD []) (r.severity.getD "medium")) := by
  refine ⟨rfl, rfl, ?_, ?_⟩
  · intro hnone
    rw [show (enhance_alert true (Except.ok r) metric value now history).2 =
      boundedAppend 10 history
        (AlertRecord.mk now metric value (r.severity.getD "medium")) from rfl,
      hnone]
    rfl
  · simp only [add_log]
    rw [if_pos (⟨hlevel, trivial⟩ :
      (level = "warning" ∨ level = "error" ∨ level = "critical") ∧ True)]
    rfl

/-- Witness for C6 amended: a response with severity "bogus" is stored
verbatim in the alert entry. -/
theorem C6_severity_passthrough_witness :
    ("critical" = "warning" ∨ "critical" = "error" ∨ "critical" = "critical") ∧
    (add_log true true
      (Except.ok (SvcResult.mk none none none (some "bogus") none))
      "t" "critical" "CPU Critical: 95%" none
      (AppState.mk [] [] [] 0 0)).ai_alerts_store =
      [AiEntry.mk "t" "critical" "CPU Critical: 95%" "" [] [] "bogus"] := by
  have h := C6_severity_passthrough
    (SvcResult.mk none none none (some "bogus") none)
    "cpu" "critical" "CPU Critical: 95%" 50 "t" [] none
    (AppState.mk [] [] [] 0 0) (Or.inr (Or.inr rfl))
  refine ⟨Or.inr (Or.inr rfl), ?_⟩
  rw [h.2.2.2]
  decide

/-- Claim C7: `generate_recommendations` checks cpu > 70, memory > 80 and
disk > 85 independently in the fixed order CPU, memory, disk, emits one
recommendation per crossed threshold (disk with priority "critical", the
others "high"), never more than three, with a summary stating the count;
cpu 75 / memory 50 / disk 50 yields exactly one "cpu"/"high"
recommendation, and 10/10/10 yields none with a zero-count summary. -/
theorem C7_recommendations (now : String) (cpu memory_percent disk_percent : Rat) :
    ((generate_recommendations now cpu memory_percent disk_percent).recommendations.map
        (fun r => (r.type, r.priority))) =
      ((if 70 < cpu then [("cpu", "high")] else []) ++
       (if 80 < memory_percent then [("memory", "high")] else []) ++
       (if 85 < disk_percent then [("disk", "critical")] else [])) ∧
    (generate_recommendations now cpu memory_percent disk_percent).recommendations.length ≤ 3 ∧
    (generate_recommendations now cpu memory_percent disk_percent).summary =
      "Found " ++ toString (generate_recommendations now cpu memory_percent
        disk_percent).recommendations.length ++ " optimization opportunities" ∧
    (generate_recommendations now 75 50 50).recommendations.map
      (fun r => (r.type, r.priority)) = [("cpu", "high")] ∧
    (generate_recommendations now 10 10 10).recommendations = [] ∧
    (generate_recommendations now 10 10 10).summary =
      "Found 0 optimization opportunities" := by
  refine ⟨?_, ?_, rfl, ?_, ?_, ?_⟩
  · simp only [generate_recommendations]
    split_ifs <;> simp
  · simp only [generate_recommendations]
    split_ifs <;> simp
  · norm_num [generate_recommendations]
  · norm_num [generate_recommendations]
  · norm_num [generate_recommendations]
    decide

lemma add_log_prom_logs (aiEnabled hasClient : Bool)
    (outcome : Except String SvcResult) (now level message : String)
    (metrics : Option Snapshot) (s : AppState) :
    (add_log aiEnabled hasClient outcome now level message metrics s).prom_logs
      = s.prom_logs + 1 := by
  simp only [add_log]
  split <;> rfl

lemma add_log_logs_getLast (aiEnabled hasClient : Bool)
    (outcome : Except String SvcResult) (now level message : String)
    (metrics : Option Snapshot) (s : AppState) :
    (add_log aiEnabled hasClient outcome now level message metrics
      s).logs_store.getLast? =
      some (now ++ " | " ++ strUpper level ++ " | " ++ message) := by
  simp only [add_log]
  split
  · split
    · next hlen =>
        have hne : s.logs_store ≠ [] := by
          intro hnil
          rw [hnil] at hlen
          simp at hlen
        rw [List.tail_append_of_ne_nil hne]
        exact List.getLast?_concat _
    · exact List.getLast?_concat _
  · split
    · next hlen =>
        have hne : s.logs_store ≠ [] := by
          intro hnil
          rw [hnil] at hlen
          simp at hlen
        rw [List.tail_append_of_ne_nil hne]
        exact List.getLast?_concat _
    · exact List.getLast?_concat _

lemma monitor_tick_prom_logs (aiEnabled hasClient : Bool)
    (outcome : Except String SvcResult) (t : TickInput) (s : AppState) :
    (monitor_tick aiEnabled hasClient outcome t s).prom_logs = s.prom_logs + 1 := by
  cases t <;> simp only [monitor_tick] <;> exact add_log_prom_logs ..

lemma run_monitor_prom_logs (aiEnabled hasClient : Bool)
    (outcome : Except String SvcResult) :
    ∀ (ticks : List TickInput) (s : AppState),
      (run_monitor aiEnabled hasClient outcome ticks s).prom_logs =
        s.prom_logs + ticks.length
  | [], s => by simp [run_monitor]
  | t :: ts, s => by
      simp only [run_monitor, List.foldl_cons, List.length_cons]
      have h := run_monitor_prom_logs aiEnabled hasClient outcome ts
        (monitor_tick aiEnabled hasClient outcome t s)
      simp only [run_monitor] at h
      rw [h, monitor_tick_prom_logs]
      omega

/-- Claim C8: a failure inside a sampling tick is caught at the tick
boundary and becomes an ERROR log event carrying the failure message, the
tick still bumps the per-tick log counter, every scheduled tick is
processed (one log event each, failures included), and the run through a
failing tick continues with the remaining ticks. -/
theorem C8_loop_fault_tolerant (aiEnabled hasClient : Bool)
    (outcome : Except String SvcResult) (now msg : String) (s : AppState)
    (ticks : List TickInput) :
    (monitor_tick aiEnabled hasClient outcome (TickInput.fail now msg)
      s).logs_store.getLast? =
      some (now ++ " | " ++ "ERROR" ++ " | " ++ ("Monitor Error: " ++ msg)) ∧
    (monitor_tick aiEnabled hasClient outcome (TickInput.fail now msg)
      s).prom_logs = s.prom_logs + 1 ∧
    (run_monitor aiEnabled hasClient outcome ticks s).prom_logs =
      s.prom_logs + ticks.length ∧
    run_monitor aiEnabled hasClient outcome (TickInput.fail now msg :: ticks) s =
      run_monitor aiEnabled hasClient outcome ticks
        (monitor_tick aiEnabled hasClient outcome (TickInput.fail now msg) s) := by
  refine ⟨?_, monitor_tick_prom_logs .., run_monitor_prom_logs .., rfl⟩
  have h := add_log_logs_getLast aiEnabled hasClient outcome now "error"
    ("Monitor Error: " ++ msg) none s
  rw [show strUpper "error" = "ERROR" from by decide] at h
  exact h

/-- Claim C10: for every enrichment call issued by `add_log` on a
warning/error/critical event, the value handed to `enhance_alert` is the
snapshot CPU percentage (0 when no snapshot): the stored history record
carries the CPU value, and the fallback severity of the stored alert entry
is computed from the CPU reading alone — concretely, a memory-critical
tick at cpu 30 / memory 95 stores severity "low". -/
theorem C10_enhance_value_is_cpu (r : SvcResult) (now level message : String)
    (metrics : Option Snapshot) (s : AppState)
    (outcome : Except String SvcResult)
    (hlevel : level = "warning" ∨ level = "error" ∨ level = "critical")
    (hhist : s.alert_history.length ≤ 10)
    (halerts : s.ai_alerts_store.length ≤ 20) :
    (∀ snap : Snapshot, enhanceValue (some snap) = snap.cpu) ∧
    enhanceValue none = 0 ∧
    ((add_log true true (Except.ok r) now level message metrics
      s).alert_history).getLast? =
      some (AlertRecord.mk now (enhanceMetricName message)
        (enhanceValue metrics) (r.severity.getD "medium")) ∧
    ((add_log true false outcome now level message metrics
      s).ai_alerts_store).getLast? =
      some (AiEntry.mk now level message
        (enhanceMetricName message ++ " is at " ++
          toString (enhanceValue metrics) ++ "%")
        ["System load", "Application demand", "Background processes"]
        ["Check running processes", "Monitor trends", "Consider scaling"]
        (if 80 < enhanceValue metrics then "high"
         else if 60 < enhanceValue metrics then "medium" else "low")) ∧
    ((monitor_tick true false (Except.error "x")
      (TickInput.ok "t" (Snapshot.mk 30 95 50) false)
      (AppState.mk [] [] [] 0 0)).ai_alerts_store).map
        (fun a => (a.original_message, a.severity)) =
      [("Memory Critical: 95%", "low")] := by
  refine ⟨fun snap => rfl, rfl, ?_, ?_, by decide⟩
  · simp only [add_log]
    rw [if_pos (⟨hlevel, trivial⟩ :
      (level = "warning" ∨ level = "error" ∨ level = "critical") ∧ True)]
    exact boundedAppend_getLast 10 s.alert_history _ (by norm_num) hhist
  · simp only [add_log]
    rw [if_pos (⟨hlevel, trivial⟩ :
      (level = "warning" ∨ level = "error" ∨ level = "critical") ∧ True)]
    exact boundedAppend_getLast 20 s.ai_alerts_store _ (by norm_num) halerts

/-- Witness for C10: a memory-critical alert with cpu 30 stores a history
record whose value is 30, the CPU reading. -/
theorem C10_enhance_value_is_cpu_witness :
    (("critical" : String) = "warning" ∨ ("critical" : String) = "error" ∨
      ("critical" : String) = "critical") ∧
    ((add_log true true
      (Except.ok (SvcResult.mk none none none (some "high") none))
      "t" "critical" "Memory Critical: 95%" (some (Snapshot.mk 30 95 50))
      (AppState.mk [] [] [] 0 0)).alert_history).getLast? =
      some (AlertRecord.mk "t" "Memory Critical" 30 "high") := by
  have h := C10_enhance_value_is_cpu
    (SvcResult.mk none none none (some "high") none) "t" "critical"
    "Memory Critical: 95%" (some (Snapshot.mk 30 95 50))
    (AppState.mk [] [] [] 0 0) (Except.error "x")
    (Or.inr (Or.inr rfl)) (by simp) (by simp)
  refine ⟨Or.inr (Or.inr rfl), ?_⟩
  rw [h.2.2.1]
  decide

end CloudMonitor
